import Mathlib

/-!
Verification of the event dispatch engine of `bot.py`: binding/activation
state machine, document accessor, event rendering, retry/backoff delivery
and the webhook ingestion gate.  Python dictionaries coming from JSON are
embedded as `JVal`; handlers become pure functions over explicit inputs
(parsed body, per-attempt send outcomes, document-store read results), and
Python exceptions become explicit `Exc` values threaded through
`Except`/`Option` results.
-/

/-- A JSON value as produced by `request.json()` / `json.loads`. -/
inductive JVal where
  | jnull
  | jbool (b : Bool)
  | jnum (q : ℚ)
  | jstr (s : String)
  | jarr (xs : List JVal)
  | jobj (kvs : List (String × JVal))

/-- Python truthiness of a JSON-derived value (`if v:`). -/
def jTruthy : JVal → Bool
  | .jnull => false
  | .jbool b => b
  | .jnum q => q != 0
  | .jstr s => s != ""
  | .jarr xs => !xs.isEmpty
  | .jobj kvs => !kvs.isEmpty

/-- `d.get(k)` on a JSON object: `none` both for an absent key. -/
def pyGet (kvs : List (String × JVal)) (k : String) : Option JVal :=
  (kvs.find? (fun p => p.1 == k)).map (fun p => p.2)

/-- `d.get(k)` collapsing a stored JSON `null` to Python `None`, as the
comparisons `lat is None` / `lon is None` see it. -/
def pyGetNonNull (kvs : List (String × JVal)) (k : String) : Option JVal :=
  match pyGet kvs k with
  | some .jnull => none
  | r => r

/-- Truthiness of an optional value (`if not d.get(k)`). -/
def optTruthy : Option JVal → Bool
  | none => false
  | some v => jTruthy v

/-- Models Python `str()` as used by the handlers inside f-strings.  Scalar
cases are exact up to numeric formatting (numbers are embedded as `ℚ` and
printed with its `toString`, a fixed injective rendering standing in for
float/int formatting); container cases are abstract literals, never
inspected by any claim. -/
def pyStr : JVal → String
  | .jnull => "None"
  | .jbool true => "True"
  | .jbool false => "False"
  | .jnum q => toString q
  | .jstr s => s
  | .jarr _ => "[list]"
  | .jobj _ => "[dict]"

/-! ### base64 (`base64.b64decode(payload, validate=True)`) -/

/-- Value of a base64 alphabet character. -/
def b64val (c : Char) : Option Nat :=
  if 'A' ≤ c && c ≤ 'Z' then some (c.toNat - 65)
  else if 'a' ≤ c && c ≤ 'z' then some (c.toNat - 97 + 26)
  else if '0' ≤ c && c ≤ '9' then some (c.toNat - 48 + 52)
  else if c == '+' then some 62
  else if c == '/' then some 63
  else none

/-- Decode the final 4-character group, honouring `=` padding. -/
def b64finalChunk (a b c d : Char) : Option (List Nat) := do
  let va ← b64val a
  let vb ← b64val b
  if c == '=' then
    if d == '=' then some [va * 4 + vb / 16] else none
  else do
    let vc ← b64val c
    if d == '=' then some [va * 4 + vb / 16, (vb % 16) * 16 + vc / 4]
    else do
      let vd ← b64val d
      some [va * 4 + vb / 16, (vb % 16) * 16 + vc / 4, (vc % 4) * 64 + vd]

/-- Decode a base64 character stream in 4-character groups; anything not a
multiple of four, outside the alphabet, or with interior padding fails,
matching `validate=True` strictness. -/
def b64chunks : List Char → Option (List Nat)
  | [] => some []
  | a :: b :: c :: d :: rest =>
    if rest.isEmpty then b64finalChunk a b c d
    else
      match b64val a, b64val b, b64val c, b64val d with
      | some va, some vb, some vc, some vd =>
        (b64chunks rest).map (fun bs =>
          (va * 4 + vb / 16) :: ((vb % 16) * 16 + vc / 4) :: ((vc % 4) * 64 + vd) :: bs)
      | _, _, _, _ => none
  | _ => none

/-- `base64.b64decode(s, validate=True)` returning `none` where Python
raises `binascii.Error`. -/
def b64decode (s : String) : Option (List Nat) :=
  b64chunks s.toList

/-- Characters after the first comma. -/
def afterFirstComma : List Char → List Char
  | [] => []
  | c :: cs => if c == ',' then cs else afterFirstComma cs

/-- `payload.split(",", 1)[1] if "," in payload else payload`: strip an
optional data-URI prefix before the first comma. -/
def stripDataUri (s : String) : String :=
  if s.toList.contains ',' then String.mk (afterFirstComma s.toList) else s

/-! ### Exceptions and permanent-failure classification -/

/-- A raised exception: an optional Telegram-API `description` attribute
plus its `str()` rendering. -/
structure Exc where
  description : Option String
  msg : String
  deriving DecidableEq

/-- `getattr(e, "description", "") or str(e)`. -/
def excText (e : Exc) : String :=
  match e.description with
  | some d => if d == "" then e.msg else d
  | none => e.msg

/-- `needle` matches at the head of the haystack. -/
def subAtHead : List Char → List Char → Bool
  | [], _ => true
  | _ :: _, [] => false
  | a :: as, b :: bs => a == b && subAtHead as bs

/-- `needle` occurs somewhere in the haystack. -/
def hasSub (needle : List Char) : List Char → Bool
  | [] => subAtHead needle []
  | c :: t => subAtHead needle (c :: t) || hasSub needle t

/-- Python `needle in hay` on strings. -/
def strContains (hay needle : String) : Bool :=
  hasSub needle.toList hay.toList

/-- `is_blocked_error`: classify a failure as permanent by the fixed
substring allow-list. -/
def is_blocked_error (e : Exc) : Bool :=
  strContains (excText e) "bot was blocked by the user" ||
  strContains (excText e) "user is deactivated" ||
  strContains (excText e) "chat not found" ||
  strContains (excText e) "Forbidden: bot was blocked by the user"

/-! ### `retry_send`: the retry/backoff engine -/

/-- Outcome of one `retry_send` invocation. -/
inductive RetryOutcome where
  | ok
  | blockedRaise (e : Exc)
  | exhausted
  deriving DecidableEq

/-- Trace of a `retry_send` run: final outcome, number of attempts made,
and the sequence of back-off sleeps performed (in seconds). -/
structure RetryTrace where
  outcome : RetryOutcome
  attemptsMade : Nat
  delays : List ℚ
  deriving DecidableEq

/-- `min(base_sleep * 2 ** (attempt - 1), 10)` with `base_sleep = 0.8`. -/
def sleepFor (attempt : Nat) : ℚ :=
  min ((4 / 5 : ℚ) * 2 ^ (attempt - 1)) 10

/-- The attempt loop of `retry_send`.  `oracle n` is the outcome of the
underlying call on attempt `n` (`none` = success, `some e` = raises `e`);
`fuel` is the number of attempts still allowed. -/
def retryGo (oracle : Nat → Option Exc) (attempt : Nat) : Nat → RetryTrace
  | 0 => { outcome := .exhausted, attemptsMade := 0, delays := [] }
  | fuel + 1 =>
    match oracle attempt with
    | none => { outcome := .ok, attemptsMade := 1, delays := [] }
    | some e =>
      if is_blocked_error e then
        { outcome := .blockedRaise e, attemptsMade := 1, delays := [] }
      else
        let rest := retryGo oracle (attempt + 1) fuel
        { outcome := rest.outcome, attemptsMade := rest.attemptsMade + 1,
          delays := sleepFor attempt :: rest.delays }

/-- `retry_send` with the default budget of 5 attempts. -/
def retry_send (oracle : Nat → Option Exc) : RetryTrace :=
  retryGo oracle 1 5

/-! ### Data model: the persisted document -/

/-- A `telegramBinding` sub-record.  `none` fields model absent keys; a
falsy-empty binding dict behaves exactly like an absent one in every
lookup, so both are embedded as a `none` binding on the user. -/
structure Binding where
  activationId : Option String
  status : Option String
  chatId : Option Int
  username : Option String
  deriving DecidableEq

/-- One user record of the document. -/
structure User where
  userId : Option String
  nickname : Option String
  telegramBinding : Option Binding
  deriving DecidableEq

/-- The persisted document.  `users = none` models a document without a
`users` key (in particular the empty document `{}`). -/
structure Document where
  users : Option (List User)
  deriving DecidableEq

/-- `db_data.get("users", [])`. -/
def getUsers (db : Document) : List User :=
  db.users.getD []

/-- Python truthiness of the parsed document dict (`if db_data:`). -/
def docTruthy (db : Document) : Bool :=
  db.users.isSome

/-- `find_user_by_chat_id`: first user whose binding is truthy and has a
matching `chatId`. -/
def find_user_by_chat_id (db : Document) (chat_id : Int) : Option User :=
  (getUsers db).find? (fun u =>
    match u.telegramBinding with
    | some b => b.chatId == some chat_id
    | none => false)

/-- `user.get("telegramBinding", {}).get("status")`. -/
def bindingStatus (u : User) : Option String :=
  u.telegramBinding.bind (fun b => b.status)

/-- Python `==` between a stored integer `chatId` and the raw JSON
`chat_id` of the request body (ints, int-valued floats and bools compare
equal to integers; everything else does not). -/
def chatIdAsInt : JVal → Option Int
  | .jnum q => if q.den == 1 then some q.num else none
  | .jbool true => some 1
  | .jbool false => some 0
  | _ => none

/-- `find_user_by_chat_id` as invoked with the raw JSON `chat_id`. -/
def findByChatJVal (db : Document) (v : JVal) : Option User :=
  match chatIdAsInt v with
  | some n => find_user_by_chat_id db n
  | none => none

/-- Replace the first element satisfying `p` (mutation of the object found
by a first-match scan). -/
def updateFirst (p : α → Bool) (f : α → α) : List α → List α
  | [] => []
  | x :: xs => if p x then f x :: xs else x :: updateFirst p f xs

/-- The activation lookup predicate of `handle_start`: binding truthy,
matching `activationId`, and `status == "pending"`. -/
def pendingMatch (aid : String) (u : User) : Bool :=
  match u.telegramBinding with
  | some b => b.activationId == some aid && b.status == some "pending"
  | none => false

/-- First user with a pending binding carrying this activation id. -/
def find_pending (db : Document) (aid : String) : Option User :=
  (getUsers db).find? (pendingMatch aid)

/-- The `pending → active` transition applied in place to the first
matching user: `status = "active"`, `chatId`, `username` set. -/
def activateFirst (db : Document) (aid : String) (chat_id : Int)
    (username : Option String) : Document :=
  { users := db.users.map (updateFirst (pendingMatch aid) (fun u =>
      { u with telegramBinding := u.telegramBinding.map (fun b =>
          { b with status := some "active", chatId := some chat_id,
                   username := username }) })) }

/-- The `→ bot_blocked` transition applied in place to the first user
matching the request chat id. -/
def markBlockedFirst (db : Document) (chat_id : JVal) : Document :=
  { users := db.users.map (updateFirst (fun u =>
      match u.telegramBinding, chatIdAsInt chat_id with
      | some b, some n => b.chatId == some n
      | _, _ => false)
      (fun u =>
        { u with telegramBinding := u.telegramBinding.map (fun b =>
            { b with status := some "bot_blocked" }) })) }

/-! ### `/start` activation command handler -/

/-- The user-visible replies `handle_start` can produce. -/
inductive StartReply where
  | dbFail
  | greetAlreadyActive
  | needLink
  | alreadyBoundOther
  | activated
  | saveFail
  | badCode
  deriving DecidableEq

/-- Result of one `handle_start` run: the reply sent and the document
passed to `write_db`, if any write was attempted. -/
structure StartOut where
  reply : StartReply
  written : Option Document
  deriving DecidableEq

/-- `handle_start`.  `readRes` is the `read_db()` result, `activation` the
optional regex capture of `/start <id>` (collapsed to `none` when falsy),
`writeOk` the success of the `write_db` call if one happens. -/
def handle_start (readRes : Option Document) (chat_id : Int)
    (sender_username : Option String) (activation : Option String)
    (writeOk : Bool) : StartOut :=
  match readRes with
  | none => { reply := .dbFail, written := none }
  | some db =>
    let active_user := find_user_by_chat_id db chat_id
    let aid : Option String :=
      match activation with
      | some s => if s == "" then none else some s
      | none => none
    match active_user, aid with
    | some _, none => { reply := .greetAlreadyActive, written := none }
    | none, none => { reply := .needLink, written := none }
    | some _, some _ => { reply := .alreadyBoundOther, written := none }
    | none, some a =>
      match find_pending db a with
      | some _ =>
        let db2 := activateFirst db a chat_id sender_username
        if writeOk then { reply := .activated, written := some db2 }
        else { reply := .saveFail, written := some db2 }
      | none => { reply := .badCode, written := none }

/-! ### Document store accessor -/

/-- `{}`: the document returned for an empty remote object. -/
def emptyDoc : Document := { users := none }

/-- The body of `read_db`'s `try` block: fetch the raw bytes (an
`Except`-modelled remote download, `error` = transport exception), then
parse them (`parse` models `json.loads` plus document decoding, `error` =
parse exception).  An empty raw object parses to the empty document. -/
def read_db_body (fetch : Except Exc String)
    (parse : String → Except Exc Document) : Except Exc Document := do
  let raw ← fetch
  if raw == "" then pure emptyDoc else parse raw

/-- `read_db`: the `try/except` wrapper mapping every internal exception
to `None`.  The `Option` return type is the accessor boundary — no
exception channel exists past it. -/
def read_db (fetch : Except Exc String)
    (parse : String → Except Exc Document) : Option Document :=
  match read_db_body fetch parse with
  | .ok d => some d
  | .error _ => none

/-- The body of `write_db`'s `try` block: serialize-and-upload, modelled
by its `Except` outcome. -/
def write_db_body (upload : Document → Except Exc Unit) (d : Document) :
    Except Exc Unit :=
  upload d

/-- `write_db`: the `try/except` wrapper mapping every internal exception
to `False`. -/
def write_db (upload : Document → Except Exc Unit) (d : Document) : Bool :=
  match write_db_body upload d with
  | .ok _ => true
  | .error _ => false

/-! ### Event renderer -/

/-- A message descriptor: either a photo media-group entry (decoded bytes,
optional caption and parse mode) or a text message. -/
inductive Descriptor where
  | photo (bytes : List Nat) (caption : Option String) (parse_mode : Option String)
  | text (body : String) (parse_mode : Option String) (disable_preview : Bool)
  deriving DecidableEq

/-- Caption of a descriptor, if any. -/
def capOf : Descriptor → Option String
  | .photo _ c _ => c
  | .text _ _ _ => none

/-- `event_data.get(k, "-")` interpolated through `str()`. -/
def fieldOrDash (ed : List (String × JVal)) (k : String) : String :=
  match pyGet ed k with
  | some v => pyStr v
  | none => "-"

/-- The caption of the `photos` branch, summarizing `fingerprint` and
`collectedAt`. -/
def photosCaption (ed : List (String × JVal)) : String :=
  "📸 **Нові фото!**\n\n**Пристрій:** `" ++ fieldOrDash ed "fingerprint" ++
  "`\n**Час:** `" ++ fieldOrDash ed "collectedAt" ++ "`"

/-- Decoding of one media item inside the per-item `try`: strings go
through data-URI stripping and base64; any other value raises inside the
`try` and is skipped, so it decodes to `none` as well. -/
def decodeItem : JVal → Option (List Nat)
  | .jstr s => b64decode (stripDataUri s)
  | _ => none

/-- The `for idx, photo_b64 in enumerate(...)` loop of the `photos`
branch: decode each item, skip failures, attach the caption and parse
mode to index 0 only. -/
def photosLoop (cap : String) (idx : Nat) : List JVal → List Descriptor
  | [] => []
  | v :: vs =>
    match decodeItem v with
    | some bs =>
      Descriptor.photo bs (if idx == 0 then some cap else none)
        (if idx == 0 then some "Markdown" else none) :: photosLoop cap (idx + 1) vs
    | none => photosLoop cap (idx + 1) vs

/-- One indexed item of the declarative `photos` rendering: decode, keep
failures out, caption on index 0 only. -/
def photosF (cap : String) (p : Nat × JVal) : Option Descriptor :=
  (decodeItem p.2).map (fun bs =>
    Descriptor.photo bs (if p.1 == 0 then some cap else none)
      (if p.1 == 0 then some "Markdown" else none))

/-- Declarative form of the `photos` rendering, for comparison with the
loop: the first ten items, indexed, decoded, failures dropped, caption on
index 0. -/
def photosSpec (cap : String) (items : List JVal) : List Descriptor :=
  (items.take 10).enum.filterMap (photosF cap)

/-- `event_data.get("data", [])[:10]`: the first ten items of a sliceable
value; a non-sliceable value raises (`none`). -/
def sliceItems : JVal → Option (List JVal)
  | .jarr xs => some (xs.take 10)
  | .jstr s => some ((s.toList.take 10).map (fun c => JVal.jstr (String.mk [c])))
  | _ => none

/-- The map link of the `location` branch. -/
def mapsLink (lat lon : JVal) : String :=
  "https://www.google.com/maps?q=" ++ pyStr lat ++ "," ++ pyStr lon

/-- Text of the `location` message up to the link. -/
def locationHead (ed : List (String × JVal)) (lat lon : JVal) : String :=
  "📍 **Отримано геолокацію!**\n\n**Пристрій:** `" ++
  fieldOrDash ed "fingerprint" ++ "`\n**Координати:** `" ++ pyStr lat ++
  ", " ++ pyStr lon ++ "`\n\n[Відкрити на карті]("

/-- The full `location` message text. -/
def locationMessage (ed : List (String × JVal)) (lat lon : JVal) : String :=
  locationHead ed lat lon ++ mapsLink lat lon ++ ")"

/-- One `key: value` line of the `form` field list. -/
def formLine (p : String × JVal) : String :=
  "- **" ++ p.1 ++ ":** `" ++ pyStr p.2 ++ "`"

/-- The joined field list of the `form` branch, keeping entries whose
`str()` is non-blank after trimming, with the empty-result placeholder. -/
def formFields (dkvs : List (String × JVal)) : String :=
  let lines := (dkvs.filter (fun p => (pyStr p.2).trim != "")).map formLine
  if lines.isEmpty then "_(порожньо)_" else String.intercalate "\n" lines

/-- The full `form` message text. -/
def formMessage (ed : List (String × JVal)) (dkvs : List (String × JVal)) : String :=
  "📝 **Заповнено форму: \x27" ++ fieldOrDash ed "formId" ++
  "\x27**\n\n**Пристрій:** `" ++ fieldOrDash ed "fingerprint" ++ "`\n\n" ++
  formFields dkvs

/-- A `TypeError`/`AttributeError` raised by slicing or attribute access
on an unexpected payload shape; never classified as blocked. -/
def typeExc : Exc := { description := none, msg := "TypeError" }

/-- Result of the rendering phase: the location validation failure, an
exception escaping the `try` body, or the descriptors to deliver. -/
inductive RenderOut where
  | bad400
  | raised (e : Exc)
  | msgs (ds : List Descriptor)
  deriving DecidableEq

/-- The rendering part of `handle_notify`'s `try` block, dispatching on
`event_data.get("type")`. -/
def renderEvent (ed : List (String × JVal)) : RenderOut :=
  match pyGet ed "type" with
  | some (.jstr "photos") =>
    let dv := (pyGet ed "data").getD (.jarr [])
    match sliceItems dv with
    | none => .raised typeExc
    | some items => .msgs (photosLoop (photosCaption ed) 0 items)
  | some (.jstr "location") =>
    match pyGet ed "data" with
    | none => .bad400
    | some (.jobj dkvs) =>
      match pyGetNonNull dkvs "latitude", pyGetNonNull dkvs "longitude" with
      | some lat, some lon =>
        .msgs [.text (locationMessage ed lat lon) (some "Markdown") true]
      | _, _ => .bad400
    | some _ => .raised typeExc
  | some (.jstr "form") =>
    let dv : JVal :=
      match pyGet ed "data" with
      | some v => if jTruthy v then v else .jobj []
      | none => .jobj []
    match dv with
    | .jobj dkvs => .msgs [.text (formMessage ed dkvs) (some "Markdown") false]
    | _ => .raised typeExc
  | _ => .msgs []

/-! ### Delivery -/

/-- The `RuntimeError` raised after the retry budget is exhausted. -/
def exhaustedExc : Exc :=
  { description := none, msg := "Вичерпано спроби відправки у Telegram" }

/-- What one `retry_send`-wrapped send does, as seen by its caller. -/
inductive SendFinal where
  | ok
  | raise (e : Exc)
  deriving DecidableEq

/-- Final outcome of the `k`-th send of a request, where `attempts k n`
is the outcome of attempt `n` of that send. -/
def sendFinalAt (attempts : Nat → Nat → Option Exc) (k : Nat) : SendFinal :=
  match (retry_send (attempts k)).outcome with
  | .ok => .ok
  | .blockedRaise e => .raise e
  | .exhausted => .raise exhaustedExc

/-- Sequential delivery of the rendered descriptors.  Photo descriptors go
through `safe_send_media_group`, whose per-item `try/except` logs and
swallows every failure and continues with the next item; the single text
descriptor of the other branches goes through `safe_send_message`, whose
failure propagates. -/
def deliver (attempts : Nat → Nat → Option Exc) (k : Nat) :
    List Descriptor → Except Exc Unit
  | [] => .ok ()
  | d :: ds =>
    match d with
    | .photo _ _ _ =>
      match sendFinalAt attempts k with
      | .ok => deliver attempts (k + 1) ds
      | .raise _ => deliver attempts (k + 1) ds
    | .text _ _ _ =>
      match sendFinalAt attempts k with
      | .ok => deliver attempts (k + 1) ds
      | .raise e => .error e

/-! ### Ingestion gate: `handle_notify` -/

/-- The observable result of one `handle_notify` call: HTTP status, body
text, and the documents passed to `write_db`, in order. -/
structure NotifyOut where
  status : Nat
  text : String
  writes : List Document
  deriving DecidableEq

/-- The `except` block of `handle_notify`: on a blocked-classified error,
re-read the document and persist the `bot_blocked` transition for the
matched user unless it is already `bot_blocked`.  Returns the writes
performed. -/
def exceptBlocked (e : Exc) (chat_id : JVal) (dbRead : Option Document) :
    List Document :=
  if is_blocked_error e then
    match dbRead with
    | none => []
    | some db =>
      if docTruthy db then
        match findByChatJVal db chat_id with
        | none => []
        | some u =>
          if bindingStatus u == some "bot_blocked" then []
          else [markBlockedFirst db chat_id]
      else []
  else []

/-- The per-event part of `handle_notify`: render, deliver, and on an
escaping exception run the blocked-feedback handler; always status 200. -/
def notifyDispatch (chat_id : JVal) (ed : List (String × JVal))
    (attempts : Nat → Nat → Option Exc) (dbRead : Option Document) : NotifyOut :=
  match renderEvent ed with
  | .bad400 => { status := 400, text := "Bad Request: location payload invalid", writes := [] }
  | .raised e => { status := 200, text := "OK", writes := exceptBlocked e chat_id dbRead }
  | .msgs ds =>
    match deliver attempts 0 ds with
    | .ok _ => { status := 200, text := "OK", writes := [] }
    | .error e => { status := 200, text := "OK", writes := exceptBlocked e chat_id dbRead }

/-- `handle_notify`.  `auth` is the `Authorization` header, `body` the
JSON parse of the request body (`none` = parse failure), `attempts` the
send-attempt outcomes, `dbRead` the `read_db()` result used by the
blocked-feedback path.  A request whose `event_data` (or whole body) is a
truthy non-object raises outside the `try` block and surfaces as the
framework's 500. -/
def handle_notify (secret : String) (auth : Option String) (body : Option JVal)
    (attempts : Nat → Nat → Option Exc) (dbRead : Option Document) : NotifyOut :=
  match auth with
  | none => { status := 401, text := "Unauthorized", writes := [] }
  | some h =>
    if h == "" || h != "Bearer " ++ secret then
      { status := 401, text := "Unauthorized", writes := [] }
    else
      match body with
      | none => { status := 400, text := "Bad Request: invalid JSON", writes := [] }
      | some (.jobj kvs) =>
        let cid := pyGet kvs "chat_id"
        let edv := pyGet kvs "event_data"
        if !optTruthy cid || !optTruthy edv then
          { status := 400, text := "Bad Request: Missing chat_id or event_data", writes := [] }
        else
          match edv with
          | some (.jobj edkvs) => notifyDispatch (cid.getD .jnull) edkvs attempts dbRead
          | _ => { status := 500, text := "Internal Server Error", writes := [] }
      | some _ => { status := 500, text := "Internal Server Error", writes := [] }

/-! ### Concrete fixtures used by witnesses and counterexamples -/

/-- A permanent failure as Telegram reports it. -/
def blockedExc : Exc :=
  { description := some "Forbidden: bot was blocked by the user", msg := "" }

/-- A transient network failure. -/
def netExc : Exc := { description := none, msg := "connection reset" }

/-- An active binding to chat 1. -/
def activeUser1 : User :=
  { userId := some "u1", nickname := some "vlad",
    telegramBinding := some { activationId := some "AID", status := some "active",
                              chatId := some 1, username := none } }

/-- A document holding only [activeUser1]. -/
def activeDb1 : Document := { users := some [activeUser1] }

/-- A webhook body for a one-item `photos` event to chat 1. -/
def photosBody1 : JVal :=
  .jobj [("chat_id", .jnum 1),
         ("event_data", .jobj [("type", .jstr "photos"),
                               ("data", .jarr [.jstr "QUJD"])])]

/-- A webhook body for a valid `location` event to chat 1. -/
def locBody1 : JVal :=
  .jobj [("chat_id", .jnum 1),
         ("event_data", .jobj [("type", .jstr "location"),
                               ("data", .jobj [("latitude", .jnum 10),
                                               ("longitude", .jnum 20)])])]

/-- [activeDb1] after the `bot_blocked` transition on chat 1. -/
def blockedDb1 : Document :=
  { users := some [{ activeUser1 with
      telegramBinding := some { activationId := some "AID",
                                status := some "bot_blocked",
                                chatId := some 1, username := none } }] }

/-- A user with a pending binding for activation id `X`. -/
def pendingUserX : User :=
  { userId := some "u2", nickname := some "mila",
    telegramBinding := some { activationId := some "X", status := some "pending",
                              chatId := none, username := none } }

/-- A document holding only [pendingUserX]. -/
def pendingDbX : Document := { users := some [pendingUserX] }

/-- [pendingDbX] after `/start X` from chat 7 by user `nick`. -/
def activatedDbX : Document :=
  { users := some [{ pendingUserX with
      telegramBinding := some { activationId := some "X", status := some "active",
                                chatId := some 7, username := some "nick" } }] }

/-! ## Helper lemmas -/

/-- String append acts on the underlying character lists. -/
theorem strData_append (a b : String) : (a ++ b).data = a.data ++ b.data :=
  String.data_append a b

/-- The genuine bearer header passes the auth check. -/
theorem auth_check_passes (secret : String) :
    ((("Bearer " ++ secret) == "") || (("Bearer " ++ secret) != ("Bearer " ++ secret))) = false := by
  have h1 : (("Bearer " ++ secret) == "") = false := by
    rw [beq_eq_false_iff_ne]
    intro h
    have h2 := congrArg String.data h
    rw [strData_append] at h2
    have h3 := congrArg List.length h2
    simp at h3
  rw [h1, bne_self_eq_false]
  rfl

/-- A needle matches at the head of itself followed by anything. -/
theorem subAtHead_self_append (n b : List Char) : subAtHead n (n ++ b) = true := by
  induction n with
  | nil => rfl
  | cons c cs ih => simp [subAtHead, ih]

/-- A needle occurs in any haystack of the form `a ++ n ++ b`. -/
theorem hasSub_append (a n b : List Char) : hasSub n (a ++ (n ++ b)) = true := by
  induction a with
  | nil =>
    cases n with
    | nil => cases b <;> simp [hasSub, subAtHead]
    | cons c cs =>
      have hs := subAtHead_self_append (c :: cs) b
      rw [List.cons_append] at hs
      simp [hasSub, hs]
  | cons x xs ih => simp [hasSub, ih]

/-- `List.find?` cannot hit anything once the predicate fails everywhere
after the single allowed match has been rewritten by `updateFirst`. -/
theorem find?_updateFirst_none (p : α → Bool) (f : α → α)
    (hf : ∀ x, p x = true → p (f x) = false) :
    ∀ l : List α, (l.filter p).length ≤ 1 → (updateFirst p f l).find? p = none := by
  intro l
  induction l with
  | nil => intro _; rfl
  | cons x xs ih =>
    intro hlen
    by_cases hx : p x = true
    · rw [updateFirst, if_pos hx]
      rw [List.find?_cons_of_neg _ (by rw [hf x hx]; exact Bool.false_ne_true)]
      rw [List.filter_cons_of_pos hx] at hlen
      simp only [List.length_cons, Nat.add_le_add_iff_right] at hlen
      have hnil : xs.filter p = [] := List.length_eq_zero.mp (by omega)
      rw [List.find?_eq_none]
      intro y hy hpy
      exact (List.filter_eq_nil_iff.mp hnil y hy) hpy
    · have hx2 : p x = false := by revert hx; cases p x <;> simp
      rw [updateFirst, if_neg hx]
      rw [List.find?_cons_of_neg _ (by rw [hx2]; exact Bool.false_ne_true)]
      apply ih
      rw [List.filter_cons_of_neg (by rw [hx2]; exact Bool.false_ne_true)] at hlen
      exact hlen

/-- Splitting the retry loop over a run of transient failures. -/
theorem retryGo_split (oracle : Nat → Option Exc) :
    ∀ (rem1 : Nat) (start rem2 : Nat),
    (∀ n, start ≤ n → n < start + rem1 →
      ∃ e, oracle n = some e ∧ is_blocked_error e = false) →
    retryGo oracle start (rem1 + rem2) =
      { outcome := (retryGo oracle (start + rem1) rem2).outcome,
        attemptsMade := rem1 + (retryGo oracle (start + rem1) rem2).attemptsMade,
        delays := (List.range rem1).map (fun i => sleepFor (start + i)) ++
          (retryGo oracle (start + rem1) rem2).delays } := by
  intro rem1
  induction rem1 with
  | zero => intro start rem2 _; simp
  | succ m ih =>
    intro start rem2 h
    obtain ⟨e, he, hbe⟩ := h start (Nat.le_refl start) (by omega)
    have hstep : m + 1 + rem2 = (m + rem2) + 1 := by omega
    rw [hstep]
    simp only [retryGo, he, hbe, Bool.false_eq_true, if_false]
    have ih2 := ih (start + 1) rem2 (by
      intro n h1 h2
      exact h n (by omega) (by omega))
    rw [ih2]
    have harg : start + 1 + m = start + (m + 1) := by omega
    rw [harg]
    simp only [RetryTrace.mk.injEq]
    refine ⟨trivial, by omega, ?_⟩
    have hmap : (fun i => sleepFor (start + 1 + i)) =
        ((fun i => sleepFor (start + i)) ∘ Nat.succ) := by
      funext i
      simp only [Function.comp_apply]
      exact congrArg sleepFor (by omega)
    rw [hmap, List.range_succ_eq_map, List.map_cons, List.map_map, List.cons_append]
    simp

/-! ## Claims -/

/-- C9: every transport (or parse) error inside the Document Store
Accessor is caught at the accessor boundary: `read_db` reports it as `none`
(no document) and `write_db` as `false` (unsuccess); the accessors are
total functions with no exception channel, so nothing propagates to the
caller. -/
theorem accessor_catches_transport_errors :
    (∀ (fetch : Except Exc String) (parse : String → Except Exc Document) (e : Exc),
      read_db_body fetch parse = .error e → read_db fetch parse = none) ∧
    (∀ (parse : String → Except Exc Document) (e : Exc),
      read_db (.error e) parse = none) ∧
    (∀ (upload : Document → Except Exc Unit) (d : Document) (e : Exc),
      write_db_body upload d = .error e → write_db upload d = false) ∧
    (∀ (fetch : Except Exc String) (parse : String → Except Exc Document),
      fetch = .ok "" → read_db fetch parse = some emptyDoc) := by
  refine ⟨?_, ?_, ?_, ?_⟩
  · intro fetch parse e h
    rw [read_db, h]
  · intro parse e
    rfl
  · intro upload d e h
    rw [write_db, h]
  · intro fetch parse h
    rw [h]
    rfl

/-- C9 witness: a concrete failing download and a concrete failing upload
are reported as `none` / `false`. -/
theorem accessor_catches_transport_errors_witness :
    read_db (.error netExc) (fun _ => .ok emptyDoc) = none ∧
    write_db (fun _ => .error netExc) emptyDoc = false ∧
    read_db (.ok "") (fun _ => .error netExc) = some emptyDoc := by
  refine ⟨?_, ?_, ?_⟩
  · exact accessor_catches_transport_errors.1 (.error netExc)
      (fun _ => .ok emptyDoc) netExc rfl
  · exact accessor_catches_transport_errors.2.2.1 _ emptyDoc netExc rfl
  · exact accessor_catches_transport_errors.2.2.2 _ _ rfl

/-- C3: a send failing transiently on every attempt is attempted exactly
5 times, with sleeps `min(0.8 * 2 ^ (attempt - 1), 10)` — concretely
`[0.8, 1.6, 3.2, 6.4, 10]`, non-decreasing and capped at 10 — and then
reports delivery-exhausted; a blocked failure on attempt `k ≤ 5` aborts
immediately with exactly `k` attempts consumed, propagating the error. -/
theorem retry_send_policy :
    (∀ oracle : Nat → Option Exc,
      (∀ n, 1 ≤ n → n ≤ 5 → ∃ e, oracle n = some e ∧ is_blocked_error e = false) →
      retry_send oracle =
        { outcome := .exhausted, attemptsMade := 5,
          delays := [4/5, 8/5, 16/5, 32/5, 10] } ∧
      List.Chain' (· ≤ ·) (retry_send oracle).delays ∧
      ∀ d ∈ (retry_send oracle).delays, d ≤ (10 : ℚ)) ∧
    (∀ (oracle : Nat → Option Exc) (k : Nat) (e : Exc),
      1 ≤ k → k ≤ 5 →
      (∀ n, 1 ≤ n → n < k → ∃ e2, oracle n = some e2 ∧ is_blocked_error e2 = false) →
      oracle k = some e → is_blocked_error e = true →
      (retry_send oracle).outcome = .blockedRaise e ∧
      (retry_send oracle).attemptsMade = k) := by
  constructor
  · intro oracle h
    have hs := retryGo_split oracle 5 1 0 (by
      intro n h1 h2
      exact h n h1 (by omega))
    have heq : retry_send oracle =
        { outcome := .exhausted, attemptsMade := 5,
          delays := [4/5, 8/5, 16/5, 32/5, 10] } := by
      rw [retry_send]
      have h50 : (5 : Nat) = 5 + 0 := rfl
      rw [h50, hs]
      simp only [retryGo]
      norm_num [List.range_succ, sleepFor, min_def, RetryTrace.mk.injEq]
    refine ⟨heq, ?_, ?_⟩
    · rw [heq]
      norm_num [List.chain'_cons, List.chain'_singleton]
    · rw [heq]
      intro d hd
      fin_cases hd <;> norm_num
  · intro oracle k e h1 h5 htr hke hbe
    have hj : ∃ j, k = j + 1 ∧ j ≤ 4 := ⟨k - 1, by omega, by omega⟩
    obtain ⟨j, hkj, hj4⟩ := hj
    have hs := retryGo_split oracle j 1 (5 - j) (by
      intro n hn1 hn2
      exact htr n hn1 (by omega))
    have hfive : (5 : Nat) = j + (5 - j) := by omega
    have hrem : ∃ m, 5 - j = m + 1 := ⟨4 - j, by omega⟩
    obtain ⟨m, hm⟩ := hrem
    have hstart : 1 + j = k := by omega
    rw [retry_send, hfive, hs, hstart, hm]
    simp only [retryGo, hke, hbe, if_true]
    constructor
    · trivial
    · omega

/-- C3 witness: a concrete always-transient oracle consumes all 5
attempts and exhausts; a concrete first-attempt blocked oracle makes
exactly one attempt. -/
theorem retry_send_policy_witness :
    (retry_send (fun _ => some netExc)).outcome = RetryOutcome.exhausted ∧
    (retry_send (fun _ => some netExc)).attemptsMade = 5 ∧
    (retry_send (fun _ => some blockedExc)).outcome = RetryOutcome.blockedRaise blockedExc ∧
    (retry_send (fun _ => some blockedExc)).attemptsMade = 1 := by
  have h1 := (retry_send_policy.1 (fun _ => some netExc)
    (fun n _ _ => ⟨netExc, rfl, by decide⟩)).1
  have h2 := retry_send_policy.2 (fun _ => some blockedExc) 1 blockedExc
    (Nat.le_refl 1) (by omega) (fun n hn1 hn2 => absurd hn1 (by omega)) rfl (by decide)
  exact ⟨by rw [h1], by rw [h1], h2.1, h2.2⟩

/-- C4: once a pending binding with a given activation id has been
transitioned to `active` by `handle_start` (any write it performs), the
activation lookup — a user whose binding has `status == "pending"` and that
`activationId` — finds no user in the written document, provided the
document held at most one pending binding for that id (activation ids are
single-use tokens, so documents carry at most one pending match). -/
theorem activation_id_single_use :
    ∀ (db : Document) (aid : String) (chat_id : Int) (uname : Option String)
      (writeOk : Bool) (db2 : Document),
      ((getUsers db).filter (pendingMatch aid)).length ≤ 1 →
      (handle_start (some db) chat_id uname (some aid) writeOk).written = some db2 →
      find_pending db2 aid = none := by
  intro db aid cid un wok db2 hlen hw
  simp only [handle_start] at hw
  cases hae : (aid == "") with
  | true =>
    rw [hae] at hw
    simp only [if_true] at hw
    cases hfu : find_user_by_chat_id db cid <;> rw [hfu] at hw <;> simp at hw
  | false =>
    rw [hae] at hw
    simp only [Bool.false_eq_true, if_false] at hw
    cases hfu : find_user_by_chat_id db cid with
    | some u => rw [hfu] at hw; simp at hw
    | none =>
      rw [hfu] at hw
      simp only [] at hw
      cases hfp : find_pending db aid with
      | none => rw [hfp] at hw; simp at hw
      | some u =>
        rw [hfp] at hw
        have hdb2 : db2 = activateFirst db aid cid un := by
          cases wok <;> simp_all
        rw [hdb2, find_pending, activateFirst]
        cases hus : db.users with
        | none => rfl
        | some us =>
          simp only [Option.map_some, getUsers, Option.getD_some]
          apply find?_updateFirst_none
          · intro x hx
            rw [pendingMatch] at hx ⊢
            cases hb : x.telegramBinding with
            | none => rw [hb] at hx; exact absurd hx (by simp)
            | some b =>
              rw [hb] at hx
              simp only [Option.map_some]
              simp
          · rw [getUsers, hus, Option.getD_some] at hlen
            exact hlen

/-- C4 witness: activating the single pending user for id `X` yields a
written document in which the pending lookup for `X` finds nobody. -/
theorem activation_id_single_use_witness :
    find_pending activatedDbX "X" = none := by
  apply activation_id_single_use pendingDbX "X" 7 (some "nick") true
  · decide
  · decide

/-- C5: a `/start` command (with or without an activation argument) from a
chat whose id is already bound to an active user performs no `write_db`
call and no binding mutation — the stored document is left unchanged, so
any number of repetitions never changes stored state — and replies with a
user-visible already-bound message (the greeting for a bare `/start`, the
cannot-activate-another-code message when an activation id is supplied). -/
theorem already_bound_start_is_noop :
    ∀ (db : Document) (chat_id : Int) (uname : Option String)
      (act : Option String) (writeOk : Bool) (u : User),
      find_user_by_chat_id db chat_id = some u →
      bindingStatus u = some "active" →
      (handle_start (some db) chat_id uname act writeOk).written = none ∧
      ((handle_start (some db) chat_id uname act writeOk).reply =
          StartReply.greetAlreadyActive ∨
        (handle_start (some db) chat_id uname act writeOk).reply =
          StartReply.alreadyBoundOther) := by
  intro db cid un act wok u hfu _
  simp only [handle_start, hfu]
  cases act with
  | none => simp
  | some s =>
    by_cases hse : s = ""
    · simp [hse]
    · simp [hse]

/-- C5 witness: repeating `/start AID` (and bare `/start`) from chat 1,
already actively bound, writes nothing. -/
theorem already_bound_start_is_noop_witness :
    (handle_start (some activeDb1) 1 none (some "AID") true).written = none ∧
    (handle_start (some activeDb1) 1 none none true).written = none := by
  constructor
  · exact (already_bound_start_is_noop activeDb1 1 none (some "AID") true activeUser1
      (by decide) (by decide)).1
  · exact (already_bound_start_is_noop activeDb1 1 none none true activeUser1
      (by decide) (by decide)).1

/-- C10: past auth and JSON parsing, a `chat_id` or `event_data` that is
either absent or present with a Python-falsy value (such as `chat_id = 0`
or `event_data = {}`) is rejected with the same 400 missing-field
response; presence with a falsy value is indistinguishable from absence. -/
theorem falsy_fields_rejected :
    ∀ (secret : String) (kvs : List (String × JVal))
      (attempts : Nat → Nat → Option Exc) (dbRead : Option Document),
      optTruthy (pyGet kvs "chat_id") = false ∨
        optTruthy (pyGet kvs "event_data") = false →
      handle_notify secret (some ("Bearer " ++ secret)) (some (.jobj kvs)) attempts dbRead =
        { status := 400, text := "Bad Request: Missing chat_id or event_data",
          writes := [] } := by
  intro secret kvs attempts dbRead h
  simp only [handle_notify, auth_check_passes, Bool.false_eq_true, if_false]
  have hcond : (!optTruthy (pyGet kvs "chat_id") ||
      !optTruthy (pyGet kvs "event_data")) = true := by
    rcases h with h | h <;> rw [h] <;> simp
  rw [hcond]
  simp

/-- C10 witness: `chat_id = 0` and `event_data = {}` are both rejected
with the missing-field 400, exactly as absence is. -/
theorem falsy_fields_rejected_witness :
    handle_notify "s" (some "Bearer s")
        (some (.jobj [("chat_id", .jnum 0), ("event_data", .jobj [("type", .jstr "form")])]))
        (fun _ _ => none) none =
      { status := 400, text := "Bad Request: Missing chat_id or event_data", writes := [] } ∧
    handle_notify "s" (some "Bearer s")
        (some (.jobj [("chat_id", .jnum 1), ("event_data", .jobj [])]))
        (fun _ _ => none) none =
      { status := 400, text := "Bad Request: Missing chat_id or event_data", writes := [] } := by
  constructor
  · exact falsy_fields_rejected "s" _ _ _ (Or.inl (by decide))
  · exact falsy_fields_rejected "s" _ _ _ (Or.inr (by decide))

/-- Reduction of `handle_notify` for a structurally valid request: correct
bearer, JSON-object body, truthy `chat_id`, object-shaped non-empty
`event_data`. -/
theorem handle_notify_valid (secret : String) (kvs : List (String × JVal))
    (cid : JVal) (edkvs : List (String × JVal))
    (attempts : Nat → Nat → Option Exc) (dbRead : Option Document)
    (hc : pyGet kvs "chat_id" = some cid) (hct : jTruthy cid = true)
    (he : pyGet kvs "event_data" = some (.jobj edkvs)) (hne : edkvs ≠ []) :
    handle_notify secret (some ("Bearer " ++ secret)) (some (.jobj kvs)) attempts dbRead =
      notifyDispatch cid edkvs attempts dbRead := by
  have het : jTruthy (.jobj edkvs) = true := by
    simp [jTruthy, List.isEmpty_eq_false.mpr hne]
  simp only [handle_notify, auth_check_passes, Bool.false_eq_true, if_false,
    hc, he, optTruthy, hct, het, Bool.not_true, Bool.or_self, Option.getD_some]

/-- C6: for a structurally valid request (auth passes, body is a JSON
object, `chat_id` truthy, `event_data` a non-empty object) that does not
hit the location-validation 400, the handler returns status 200 for every
possible rendering exception, delivery outcome and document-store state:
exceptions past validation are swallowed, never surfaced to the caller. -/
theorem internal_failures_return_200 :
    ∀ (secret : String) (kvs : List (String × JVal)) (cid : JVal)
      (edkvs : List (String × JVal)) (attempts : Nat → Nat → Option Exc)
      (dbRead : Option Document),
      pyGet kvs "chat_id" = some cid → jTruthy cid = true →
      pyGet kvs "event_data" = some (.jobj edkvs) → edkvs ≠ [] →
      renderEvent edkvs ≠ .bad400 →
      (handle_notify secret (some ("Bearer " ++ secret)) (some (.jobj kvs))
          attempts dbRead).status = 200 := by
  intro secret kvs cid edkvs attempts dbRead hc hct he hne hnb
  rw [handle_notify_valid secret kvs cid edkvs attempts dbRead hc hct he hne]
  rw [notifyDispatch]
  cases hr : renderEvent edkvs with
  | bad400 => exact absurd hr hnb
  | raised e => rfl
  | msgs ds =>
    simp only []
    cases hd : deliver attempts 0 ds with
    | ok _ => rfl
    | error e => rfl

/-- C6 witness: a form event whose send fails transiently on every
attempt (delivery-exhausted) is still acknowledged with 200. -/
theorem internal_failures_return_200_witness :
    (handle_notify "s" (some "Bearer s")
        (some (.jobj [("chat_id", .jnum 1),
          ("event_data", .jobj [("type", .jstr "form"), ("formId", .jstr "f1")])]))
        (fun _ _ => some netExc) none).status = 200 := by
  exact internal_failures_return_200 "s" _ (.jnum 1) _ _ none rfl (by decide) rfl
    (by simp) (by decide)

/-- C7: for a structurally valid `location` event, a missing
`data.latitude` or `data.longitude` (the `data` object absent, or the
coordinate key absent or null) yields the 400 location-validation response
and nothing is rendered; when both coordinates are present the renderer
produces exactly one text descriptor whose body contains the map link
derived from the two coordinates. -/
theorem location_requires_coordinates :
    ∀ (secret : String) (kvs : List (String × JVal)) (cid : JVal)
      (edkvs : List (String × JVal)) (attempts : Nat → Nat → Option Exc)
      (dbRead : Option Document),
      pyGet kvs "chat_id" = some cid → jTruthy cid = true →
      pyGet kvs "event_data" = some (.jobj edkvs) → edkvs ≠ [] →
      pyGet edkvs "type" = some (.jstr "location") →
      ((pyGet edkvs "data" = none ∨
          (∃ dkvs, pyGet edkvs "data" = some (.jobj dkvs) ∧
            (pyGetNonNull dkvs "latitude" = none ∨
              pyGetNonNull dkvs "longitude" = none))) →
        renderEvent edkvs = .bad400 ∧
        handle_notify secret (some ("Bearer " ++ secret)) (some (.jobj kvs))
            attempts dbRead =
          { status := 400, text := "Bad Request: location payload invalid",
            writes := [] }) ∧
      (∀ (dkvs : List (String × JVal)) (lat lon : JVal),
        pyGet edkvs "data" = some (.jobj dkvs) →
        pyGetNonNull dkvs "latitude" = some lat →
        pyGetNonNull dkvs "longitude" = some lon →
        renderEvent edkvs =
          .msgs [.text (locationMessage edkvs lat lon) (some "Markdown") true] ∧
        strContains (locationMessage edkvs lat lon) (mapsLink lat lon) = true) := by
  intro secret kvs cid edkvs attempts dbRead hc hct he hne ht
  constructor
  · intro hmiss
    have hrend : renderEvent edkvs = .bad400 := by
      rcases hmiss with hd | ⟨dkvs, hd, hco⟩
      · simp only [renderEvent, ht, hd]
      · rcases hco with hla | hlo
        · simp only [renderEvent, ht, hd, hla]
        · simp only [renderEvent, ht, hd, hlo]
          cases pyGetNonNull dkvs "latitude" <;> rfl
    refine ⟨hrend, ?_⟩
    rw [handle_notify_valid secret kvs cid edkvs attempts dbRead hc hct he hne,
      notifyDispatch, hrend]
  · intro dkvs lat lon hd hla hlo
    constructor
    · simp only [renderEvent, ht, hd, hla, hlo]
    · have htl : ∀ s : String, s.toList = s.data := fun _ => rfl
      rw [locationMessage, strContains, htl, htl, strData_append, strData_append,
        List.append_assoc]
      exact hasSub_append (locationHead edkvs lat lon).data (mapsLink lat lon).data ")".data

/-- The valid `location` event payload used by the C7 witness. -/
def locEventW : List (String × JVal) :=
  [("type", .jstr "location"),
   ("data", .jobj [("latitude", .jnum 10), ("longitude", .jnum 20)])]

/-- C7 witness: a location event missing `longitude` is rejected with the
400 location response, and one with both coordinates renders exactly one
text descriptor carrying the map link. -/
theorem location_requires_coordinates_witness :
    handle_notify "s" (some "Bearer s")
        (some (.jobj [("chat_id", .jnum 1),
          ("event_data", .jobj [("type", .jstr "location"),
                                ("data", .jobj [("latitude", .jnum 10)])])]))
        (fun _ _ => none) none =
      { status := 400, text := "Bad Request: location payload invalid",
        writes := [] } ∧
    renderEvent locEventW =
      .msgs [.text (locationMessage locEventW (.jnum 10) (.jnum 20))
        (some "Markdown") true] ∧
    strContains (locationMessage locEventW (.jnum 10) (.jnum 20))
      (mapsLink (.jnum 10) (.jnum 20)) = true := by
  refine ⟨?_, ?_, ?_⟩
  · exact ((location_requires_coordinates "s"
      [("chat_id", .jnum 1),
       ("event_data", .jobj [("type", .jstr "location"),
                             ("data", .jobj [("latitude", .jnum 10)])])]
      (.jnum 1)
      [("type", .jstr "location"), ("data", .jobj [("latitude", .jnum 10)])]
      (fun _ _ => none) none rfl (by decide) rfl (by simp) rfl).1
      (Or.inr ⟨[("latitude", .jnum 10)], rfl, Or.inr rfl⟩)).2
  · exact ((location_requires_coordinates "s"
      [("chat_id", .jnum 1), ("event_data", .jobj locEventW)] (.jnum 1) locEventW
      (fun _ _ => none) none rfl (by decide) rfl (by simp [locEventW]) rfl).2
      [("latitude", .jnum 10), ("longitude", .jnum 20)] (.jnum 10) (.jnum 20) rfl rfl rfl).1
  · exact ((location_requires_coordinates "s"
      [("chat_id", .jnum 1), ("event_data", .jobj locEventW)] (.jnum 1) locEventW
      (fun _ _ => none) none rfl (by decide) rfl (by simp [locEventW]) rfl).2
      [("latitude", .jnum 10), ("longitude", .jnum 20)] (.jnum 10) (.jnum 20) rfl rfl rfl).2

/-- C8 counterexample: a `device_info` event with non-empty `data` renders
no message at all — there is no `device_info` branch, the event falls
through to the unknown-type path — refuting the claim that it produces a
field-list message. -/
theorem device_info_counterexample :
    renderEvent [("type", .jstr "device_info"),
                 ("data", .jobj [("os", .jstr "ios"), ("model", .jstr "x")])] =
      .msgs [] := rfl

/-- C8 amended: every `device_info` event is treated as an unknown event
type: the renderer produces no message descriptors (the event is only
logged). -/
theorem device_info_renders_nothing :
    ∀ ed : List (String × JVal),
      pyGet ed "type" = some (.jstr "device_info") →
      renderEvent ed = .msgs [] := by
  intro ed ht
  simp only [renderEvent, ht]
  rfl

/-- C8 witness: the amended statement evaluated on a concrete
`device_info` event. -/
theorem device_info_renders_nothing_witness :
    renderEvent [("type", .jstr "device_info"), ("data", .jobj [("os", .jstr "android")])] =
      .msgs [] :=
  device_info_renders_nothing _ rfl

/-- The enumerate-loop of the `photos` branch equals the declarative
indexed `filterMap`. -/
theorem photosLoop_eq_filterMap (cap : String) :
    ∀ (l : List JVal) (i : Nat),
      photosLoop cap i l = (l.enumFrom i).filterMap (photosF cap) := by
  intro l
  induction l with
  | nil => intro i; rfl
  | cons v vs ih =>
    intro i
    rw [List.enumFrom_cons, List.filterMap_cons, photosLoop]
    cases hdec : decodeItem v with
    | none =>
      have hf : photosF cap (i, v) = none := by
        rw [photosF, hdec]
        rfl
      rw [hf, ih]
    | some bs =>
      have hf : photosF cap (i, v) =
          some (Descriptor.photo bs (if i == 0 then some cap else none)
            (if i == 0 then some "Markdown" else none)) := by
        rw [photosF, hdec]
        rfl
      rw [hf, ih]

/-- Every descriptor produced by the loop from index 1 onwards carries no
caption. -/
theorem photosLoop_tail_no_caption (cap : String) :
    ∀ (l : List JVal) (i : Nat), i ≠ 0 →
      ∀ d ∈ photosLoop cap i l, capOf d = none := by
  intro l
  induction l with
  | nil => intro i _ d hd; exact absurd hd (by simp [photosLoop])
  | cons v vs ih =>
    intro i hi d hd
    rw [photosLoop] at hd
    cases hdec : decodeItem v with
    | none =>
      rw [hdec] at hd
      exact ih (i + 1) (by omega) d hd
    | some bs =>
      rw [hdec] at hd
      simp only [List.mem_cons] at hd
      rcases hd with rfl | hd
      · have hib : (i == 0) = false := by
          cases i with
          | zero => exact absurd rfl hi
          | succ m => rfl
        rw [capOf, hib]
        rfl
      · exact ih (i + 1) (by omega) d hd

/-- C2 counterexample: a `photos` event whose first item fails base64
decoding and whose second decodes successfully produces exactly one
descriptor — a successfully decoded item — carrying **no** caption: the
caption is tied to index 0 of `data`, not to the first successfully
decoded item, refuting the claimed caption placement. -/
theorem photos_caption_counterexample :
    renderEvent [("type", .jstr "photos"),
                 ("data", .jarr [.jstr "!!!!", .jstr "QUJD"])] =
      .msgs [.photo [65, 66, 67] none none] := rfl

/-- C2 amended: for a `photos` event whose `data` is a list, the renderer
produces at most 10 descriptors, the items (after data-URI stripping)
base64-decoded with per-item failures skipped, and the caption
summarizing `fingerprint`/`collectedAt` attached to the descriptor
obtained from index 0 of `data` only — if the item at index 0 fails to
decode, no descriptor carries a caption.  A `video` event is not rendered
at all: it falls through to the unknown-type branch. -/
theorem photos_rendering_amended :
    (∀ (ed : List (String × JVal)) (l : List JVal),
      pyGet ed "type" = some (.jstr "photos") →
      (pyGet ed "data").getD (.jarr []) = .jarr l →
      renderEvent ed = .msgs (photosSpec (photosCaption ed) l) ∧
      (photosSpec (photosCaption ed) l).length ≤ 10) ∧
    (∀ (cap : String) (x : JVal) (xs : List JVal),
      decodeItem x = none →
      ∀ d ∈ photosSpec cap (x :: xs), capOf d = none) ∧
    (∀ ed : List (String × JVal),
      pyGet ed "type" = some (.jstr "video") →
      renderEvent ed = .msgs []) := by
  refine ⟨?_, ?_, ?_⟩
  · intro ed l ht hd
    constructor
    · simp only [renderEvent, ht, hd, sliceItems]
      rw [photosLoop_eq_filterMap, photosSpec, List.enum_eq_enumFrom]
    · rw [photosSpec]
      calc ((l.take 10).enum.filterMap (photosF (photosCaption ed))).length
          ≤ (l.take 10).enum.length := List.length_filterMap_le _ _
        _ = (l.take 10).length := List.enum_length
        _ ≤ 10 := by rw [List.length_take]; omega
  · intro cap x xs hdec d hd
    rw [photosSpec] at hd
    have h10 : (x :: xs).take 10 = x :: xs.take 9 := rfl
    rw [h10, List.enum_cons, List.filterMap_cons] at hd
    have hf : photosF cap (0, x) = none := by
      rw [photosF, hdec]
      rfl
    rw [hf, ← photosLoop_eq_filterMap] at hd
    exact photosLoop_tail_no_caption cap (xs.take 9) 1 (by omega) d hd
  · intro ed ht
    simp only [renderEvent, ht]
    rfl

/-- The one-item `photos` event used by the C2 witness. -/
def photosEventW : List (String × JVal) :=
  [("type", .jstr "photos"), ("data", .jarr [.jstr "QQ=="])]

/-- C2 witness: the amended statement evaluated on concrete events — a
decodable one-item batch renders per the declarative form, a descriptor
extracted from the counterexample batch carries no caption, and a `video`
event renders nothing. -/
theorem photos_rendering_amended_witness :
    renderEvent photosEventW =
      .msgs (photosSpec (photosCaption photosEventW) [.jstr "QQ=="]) ∧
    capOf (Descriptor.photo [65, 66, 67] none none) = none ∧
    renderEvent [("type", .jstr "video"), ("data", .jarr [.jstr "QQ=="])] =
      .msgs [] := by
  refine ⟨?_, ?_, ?_⟩
  · exact (photos_rendering_amended.1 photosEventW [.jstr "QQ=="] rfl rfl).1
  · exact photos_rendering_amended.2.1 "cap" (.jstr "!!!!") [.jstr "QUJD"] rfl
      (Descriptor.photo [65, 66, 67] none none) (by decide)
  · exact photos_rendering_amended.2.2 _ rfl

/-- C1: the failing input is a `photos` event whose single send fails with
a blocked-classified error.  The error aborts the retry loop after one
attempt as specified, but `safe_send_media_group`'s per-item `except`
swallows it, so the ingestion handler performs **no** `markBlocked`
transition and **no** persisted write (`writes = []`) and returns 200 —
against the claimed exactly-one persisted `markBlocked` write.  The same
blocked failure on a text-descriptor event (`location`) does reach the
handler and produces exactly the one `bot_blocked` write, showing the
feedback path exists and is bypassed only by the media-group path. -/
theorem blocked_photos_send_writes_nothing :
    is_blocked_error blockedExc = true ∧
    (retry_send (fun _ => some blockedExc)).outcome =
      RetryOutcome.blockedRaise blockedExc ∧
    (retry_send (fun _ => some blockedExc)).attemptsMade = 1 ∧
    handle_notify "s" (some "Bearer s") (some photosBody1)
        (fun _ _ => some blockedExc) (some activeDb1) =
      { status := 200, text := "OK", writes := [] } ∧
    handle_notify "s" (some "Bearer s") (some locBody1)
        (fun _ _ => some blockedExc) (some activeDb1) =
      { status := 200, text := "OK", writes := [blockedDb1] } := by
  refine ⟨by decide, by decide, by decide, by decide, by decide⟩
